import Mathlib

/-!
Verification of the ChromBPNet-pytorch data pipeline (src/chrombpnet/dataset.py).

The module materializes genomic training examples from peak and non-peak
region sets: it crops peak windows, subsamples negatives by a ratio, applies
reverse-complement augmentation, and exposes index-based retrieval.

Arrays are modelled as Lean lists, numeric entries as rationals, and the
global numpy random source as an explicit tape of natural numbers, so that
every random primitive is a pure function of the tape.
-/

namespace ChromBPNet

/-- A random tape: the stream of draws produced by the (seeded) global
numpy random source. Equal seeds give equal tapes. -/
def Tape : Type := Nat → Nat

/-- Numeric vector (one row of a count profile or of a one-hot matrix). -/
abbrev Vec : Type := List ℚ

/-- Numeric matrix (a one-hot sequence window, rows of 4 channels). -/
abbrev Mat : Type := List Vec

/-- One step of a tape-driven shuffle: pick the element at a tape-chosen
index, move it to the front, recurse on the rest. Models drawing a uniform
random permutation without replacement. -/
def shuffleAux (g : Tape) : Nat → List Nat → List Nat
  | 0, _ => []
  | _ + 1, [] => []
  | fuel + 1, x :: xs =>
      let a := (x :: xs).getD (g fuel % (x :: xs).length) 0
      a :: shuffleAux g fuel ((x :: xs).erase a)

/-- A tape-driven uniform random permutation of the indices 0, ..., n-1;
models a draw of numpy permutation of range n. -/
def npPermutation (g : Tape) (n : Nat) : List Nat :=
  shuffleAux g n (List.range n)

/-- Models numpy random choice of size elements from range n without
replacement (size is assumed at most n by the caller): the first size
entries of a random permutation of range n. -/
def npChoiceNoReplace (g : Tape) (n size : Nat) : List Nat :=
  (npPermutation g n).take size

/-- Python int() applied to a rational: truncation toward zero. -/
def pyInt (q : ℚ) : ℤ :=
  if 0 ≤ q then ⌊q⌋ else ⌈q⌉

/-- Coordinate record kept alongside each example:
(chrom, start, forward_or_reverse, is_peak). -/
structure Coord where
  chrom : String
  start : ℤ
  forward_or_reverse : Bool
  is_peak : Bool
deriving DecidableEq, Repr, Inhabited

/-- The triple of arrays produced by load_data for one region class
(peak or non-peak): sequences, counts, coordinates. In the source the
three fields are None together or populated together, so they are grouped
under a single Option. -/
structure SourceArrays where
  seqs : List Mat
  cts : List Vec
  coords : List Coord
deriving DecidableEq, Repr

/-- dataset.py lines 305-312, subsample_nonpeak_data: the index list drawn
on line 308 by numpy random choice without replacement. -/
def nonpeak_indices_to_keep (g : Tape) (popSize numSamples : Nat) : List Nat :=
  npChoiceNoReplace g popSize (min numSamples popSize)

/-- dataset.py lines 305-312: randomly sample a portion of the non-peak data.
num_nonpeak_samples = int(negative_sampling_ratio * peak_data_size); the kept
indices are a without-replacement draw of min(num, population) indices, and
the three arrays are reindexed by them. -/
def subsample_nonpeak_data (g : Tape) (nonpeak_seqs : List Mat) (nonpeak_cts : List Vec)
    (nonpeak_coords : List Coord) (peak_data_size : Nat) (negative_sampling_ratio : ℚ) :
    List Mat × List Vec × List Coord :=
  let num_nonpeak_samples := (pyInt (negative_sampling_ratio * peak_data_size)).toNat
  let keep := nonpeak_indices_to_keep g nonpeak_seqs.length num_nonpeak_samples
  (keep.map (fun i => nonpeak_seqs.getD i []),
   keep.map (fun i => nonpeak_cts.getD i []),
   keep.map (fun i => nonpeak_coords.getD i default))

/-- Modelled from the spec: random_crop lives in data_utils, which is not
under src/. Spec section 4.5 stage 1: for each jitter-enlarged peak window,
choose a random start offset uniform over the available slack, and crop both
the sequence (to inputlen) and the count profile (to outputlen) with the
same offset; the coordinate record is carried through per example. -/
def random_crop (g : Tape) (seqs : List Mat) (cts : List Vec)
    (inputlen outputlen : Nat) (coords : List Coord) :
    List Mat × List Vec × List Coord :=
  let off := fun i => g i % ((seqs.getD i []).length - inputlen + 1)
  ((List.range seqs.length).map (fun i => (((seqs.getD i []).drop (off i)).take inputlen)),
   (List.range seqs.length).map (fun i => (((cts.getD i []).drop (off i)).take outputlen)),
   (List.range seqs.length).map (fun i => coords.getD i default))

/-- Reverse complement of a one-hot row [A, C, G, T]: complementing swaps
A with T and C with G, which is reversal of the channel order. -/
def revcomp_row (row : Vec) : Vec := row.reverse

/-- Reverse complement of a one-hot sequence window: reverse the base order
and complement each base. -/
def revcomp_seq (m : Mat) : Mat := m.reverse.map revcomp_row

/-- Modelled from the spec: crop_revcomp_augment lives in data_utils, which
is not under src/. Spec section 4.5 stage 2: when add_revcomp is set, each
example independently is replaced by its reverse complement on a tape-driven
coin flip (count profile reversed to match, orientation recorded); the
optional shuffle permutes the final example order by a tape-driven uniform
permutation. -/
def crop_revcomp_augment (g : Tape) (seqs : List Mat) (cts : List Vec) (coords : List Coord)
    (inputlen outputlen : Nat) (add_revcomp shuffle : Bool) :
    List Mat × List Vec × List Coord :=
  let _ := inputlen
  let _ := outputlen
  let n := seqs.length
  let flip := fun i => add_revcomp && (g i % 2 == 1)
  let seqs1 := (List.range n).map
    (fun i => if flip i then revcomp_seq (seqs.getD i []) else seqs.getD i [])
  let cts1 := (List.range n).map
    (fun i => if flip i then (cts.getD i []).reverse else cts.getD i [])
  let coords1 := (List.range n).map
    (fun i => let c := coords.getD i default
              if flip i then { c with forward_or_reverse := true } else c)
  if shuffle then
    let p := npPermutation (fun k => g (n + k)) n
    (p.map (fun i => seqs1.getD i []),
     p.map (fun i => cts1.getD i []),
     p.map (fun i => coords1.getD i default))
  else
    (seqs1, cts1, coords1)

/-- State of ChromBPNetDataset (dataset.py lines 329-479). peak groups the
source fields peak_seqs/peak_cts/peak_coords (None together in the source),
nonpeak likewise; seqs/cts/coords and cur_seqs/cur_cts/cur_coords are the
materialized cache written by crop_revcomp_data. -/
structure Dataset where
  peak : Option SourceArrays
  nonpeak : Option SourceArrays
  negative_sampling_ratio : ℚ
  inputlen : Nat
  outputlen : Nat
  add_revcomp : Bool
  shuffle_at_epoch_start : Bool
  seqs : List Mat
  cts : List Vec
  coords : List Coord
  cur_seqs : List Mat
  cur_cts : List Vec
  cur_coords : List Coord
deriving Repr

/-- The tape consumed by stage k of crop_revcomp_data: the three stages
(peak cropping, negative sampling, augmentation) all draw from the single
global random source g. -/
def tapeSlice (g : Tape) (k : Nat) : Tape := fun n => g (3 * n + k)

/-- The field assignments at the end of each branch of crop_revcomp_data
(dataset.py lines 432-438, 445-447, 451-453 and 458-461): store the
concatenated arrays and run the augmentation that fills cur_seqs, cur_cts,
cur_coords. -/
def materialize (g : Tape) (d : Dataset)
    (seqs : List Mat) (cts : List Vec) (coords : List Coord) : Dataset :=
  let cur := crop_revcomp_augment (tapeSlice g 2) seqs cts coords
    d.inputlen d.outputlen d.add_revcomp d.shuffle_at_epoch_start
  { d with seqs := seqs, cts := cts, coords := coords,
           cur_seqs := cur.1, cur_cts := cur.2.1, cur_coords := cur.2.2 }

/-- dataset.py lines 411-461, ChromBPNetDataset.crop_revcomp_data: crop peak
data, sample negatives when negative_sampling_ratio is positive (appending
the whole non-peak arrays otherwise), raise when both peak and non-peak
arrays are absent, then augment into the cur arrays. -/
def crop_revcomp_data (g : Tape) (d : Dataset) : Except String Dataset :=
  match d.peak, d.nonpeak with
  | some pk, some npk =>
      let cropped := random_crop (tapeSlice g 0) pk.seqs pk.cts d.inputlen d.outputlen pk.coords
      if 0 < d.negative_sampling_ratio then
        let sampled := subsample_nonpeak_data (tapeSlice g 1) npk.seqs npk.cts npk.coords
          pk.seqs.length d.negative_sampling_ratio
        .ok (materialize g d (cropped.1 ++ sampled.1) (cropped.2.1 ++ sampled.2.1)
          (cropped.2.2 ++ sampled.2.2))
      else
        .ok (materialize g d (cropped.1 ++ npk.seqs) (cropped.2.1 ++ npk.cts)
          (cropped.2.2 ++ npk.coords))
  | some pk, none =>
      let cropped := random_crop (tapeSlice g 0) pk.seqs pk.cts d.inputlen d.outputlen pk.coords
      .ok (materialize g d cropped.1 cropped.2.1 cropped.2.2)
  | none, some npk =>
      .ok (materialize g d npk.seqs npk.cts npk.coords)
  | none, none => .error "Both peak and non-peak arrays are empty"

/-- dataset.py lines 407-409, ChromBPNetDataset.len: the number of samples
is the length of cur_seqs. -/
def datasetLen (d : Dataset) : Nat := d.cur_seqs.length

/-- A 32-bit float value as produced by astype(float32); the numeric value
is carried exactly, the wrapper records the conversion. -/
structure Float32 where
  val : ℚ
deriving DecidableEq, Repr

/-- astype(np.float32) applied elementwise. -/
def astype_float32 (q : ℚ) : Float32 := ⟨q⟩

/-- The dictionary returned by ChromBPNetDataset.getitem. -/
structure GetItem where
  onehot_seq : List (List Float32)
  profile : List Float32
deriving DecidableEq, Repr

/-- Numpy basic integer indexing on a 1-d axis: a nonnegative index i reads
position i when i < len; a negative index i reads position len + i when
len + i is nonnegative; anything else raises IndexError (None here). -/
def npGet {α : Type} (l : List α) (i : ℤ) : Option α :=
  if 0 ≤ i then l.get? i.toNat
  else if 0 ≤ (l.length : ℤ) + i then l.get? ((l.length : ℤ) + i).toNat
  else none

/-- dataset.py lines 465-479, ChromBPNetDataset.getitem: index cur_seqs and
cur_cts at idx, cast both to float32, and transpose the one-hot sequence to
channel-first layout. A pure read of the cur arrays: it does not invoke
crop_revcomp_data. -/
def getitem (d : Dataset) (idx : ℤ) : Option GetItem :=
  match npGet d.cur_seqs idx, npGet d.cur_cts idx with
  | some s, some c =>
      some { onehot_seq := (s.map (List.map astype_float32)).transpose,
             profile := c.map astype_float32 }
  | _, _ => none

/-- A normalized genomic region row, as produced by load_region_df. -/
structure Region where
  chrom : String
  start : ℤ
  stop : ℤ
  is_peak : Bool
deriving DecidableEq, Repr

/-- The coordinate record attached to a region at extraction time. -/
def coordOf (r : Region) : Coord :=
  { chrom := r.chrom, start := r.start, forward_or_reverse := false, is_peak := r.is_peak }

/-- Modelled from the spec: load_data lives in data_utils, which is not
under src/. The spec treats the sequence and track stores as opaque
collaborators, so they are parameters; an empty (or absent) RegionSet
yields no arrays, a non-empty one yields one sequence window, count profile
and coordinate record per region. -/
def load_data (seqStore : Region → Mat) (trackStore : Region → Vec)
    (peak_regions nonpeak_regions : List Region) :
    Option SourceArrays × Option SourceArrays :=
  ((if peak_regions.isEmpty then none else
      some { seqs := peak_regions.map seqStore,
             cts := peak_regions.map trackStore,
             coords := peak_regions.map coordOf }),
   (if nonpeak_regions.isEmpty then none else
      some { seqs := nonpeak_regions.map seqStore,
             cts := nonpeak_regions.map trackStore,
             coords := nonpeak_regions.map coordOf }))

/-- dataset.py lines 351-405, ChromBPNetDataset.init: load the source
arrays, store parameters, and materialize once by calling
crop_revcomp_data. -/
def datasetInit (g : Tape) (seqStore : Region → Mat) (trackStore : Region → Vec)
    (peak_regions nonpeak_regions : List Region) (negative_sampling_ratio : ℚ)
    (inputlen outputlen : Nat) (add_revcomp shuffle_at_epoch_start : Bool) :
    Except String Dataset :=
  let loaded := load_data seqStore trackStore peak_regions nonpeak_regions
  crop_revcomp_data g
    { peak := loaded.1, nonpeak := loaded.2,
      negative_sampling_ratio := negative_sampling_ratio,
      inputlen := inputlen, outputlen := outputlen,
      add_revcomp := add_revcomp, shuffle_at_epoch_start := shuffle_at_epoch_start,
      seqs := [], cts := [], coords := [],
      cur_seqs := [], cur_cts := [], cur_coords := [] }

/-- A row of the combined region DataFrame as seen by the DataModule split
logic: the first column (chromosome) and the is_peak flag. -/
structure Row where
  chrom : String
  is_peak : Bool
deriving DecidableEq, Repr

/-- The configuration fields of the DataModule that the chromosome split
logic reads. -/
structure DMConfig where
  data_type : String
  training_chroms : List String
  validation_chroms : List String
  test_chroms : List String
  exclude_chroms : List String
deriving Repr

/-- The DataModule state produced by init: chromosome lists after exclusion
and the split region frames. -/
structure DMState where
  train_chroms : List String
  val_chroms : List String
  test_chroms : List String
  data : List Row
  train_data : List Row
  val_data : List Row
  test_data : List Row
deriving DecidableEq, Repr

/-- dataset.py lines 113-118, DataModule.setup_chromosomes: drop the
excluded chromosomes from each configured list. -/
def setup_chromosomes (cfg : DMConfig) : List String × List String × List String :=
  (cfg.training_chroms.filter (fun i => decide (i ∉ cfg.exclude_chroms)),
   cfg.validation_chroms.filter (fun i => decide (i ∉ cfg.exclude_chroms)),
   cfg.test_chroms.filter (fun i => decide (i ∉ cfg.exclude_chroms)))

/-- dataset.py lines 120-128, DataModule.split_data: select the rows whose
chromosome is in each post-exclusion list. -/
def split_data (data : List Row) (train_chroms val_chroms test_chroms : List String) :
    List Row × List Row × List Row :=
  (data.filter (fun r => decide (r.chrom ∈ train_chroms)),
   data.filter (fun r => decide (r.chrom ∈ val_chroms)),
   data.filter (fun r => decide (r.chrom ∈ test_chroms)))

/-- dataset.py lines 48-66 plus 113-128, DataModule.init: reject any
data_type other than profile with a ValueError, then set up the chromosome
lists and split the combined region frame (the frame itself stands in for
the loading step, whose file parsing is outside the pipeline core). -/
def dataModuleInit (cfg : DMConfig) (data : List Row) : Except String DMState :=
  if cfg.data_type = "profile" then
    let chroms := setup_chromosomes cfg
    let splits := split_data data chroms.1 chroms.2.1 chroms.2.2
    .ok { train_chroms := chroms.1, val_chroms := chroms.2.1, test_chroms := chroms.2.2,
          data := data,
          train_data := splits.1, val_data := splits.2.1, test_data := splits.2.2 }
  else
    .error ("Invalid data type: " ++ cfg.data_type)

/-- dataset.py lines 298-302, split_peak_and_nonpeak. The first statement
assigns the is_peak column of the input frame to
is_peak.astype(int).astype(bool), an in-place write to the shared frame;
the third component returned here is the state of the input frame after the
call, so that the mutation is visible in the model. -/
def split_peak_and_nonpeak (data : List Row) : List Row × List Row × List Row :=
  let data1 := data.map
    (fun r => { r with is_peak := decide ((if r.is_peak then (1 : ℤ) else 0) ≠ 0) })
  let non_peaks := data1.filter (fun r => !r.is_peak)
  let peaks := data1.filter (fun r => r.is_peak)
  (peaks, non_peaks, data1)

/-- A constant tape, used to instantiate theorems on concrete inputs. -/
def tape0 : Tape := fun _ => 0

/-- A concrete materialized dataset with two examples, used to instantiate
the retrieval theorems. -/
def sampleCur : Dataset :=
  { peak := none, nonpeak := none, negative_sampling_ratio := 0,
    inputlen := 1, outputlen := 1,
    add_revcomp := false, shuffle_at_epoch_start := false,
    seqs := [], cts := [], coords := [],
    cur_seqs := [[[1, 0, 0, 0]], [[0, 1, 0, 0]]],
    cur_cts := [[5], [7]],
    cur_coords := [default, default] }

/-- A concrete source-array pair: one peak window of length one and two
non-peak windows, used to instantiate the refresh theorems. -/
def samplePeakSA : SourceArrays :=
  { seqs := [[[1, 0, 0, 0]]], cts := [[3]], coords := [default] }

/-- The non-peak companion of samplePeakSA. -/
def sampleNonpeakSA : SourceArrays :=
  { seqs := [[[0, 1, 0, 0]], [[0, 0, 1, 0]]], cts := [[4], [5]], coords := [default, default] }

/-- A concrete dataset state with both region classes present and sampling
disabled. -/
def sampleDatasetOff : Dataset :=
  { peak := some samplePeakSA, nonpeak := some sampleNonpeakSA,
    negative_sampling_ratio := -1, inputlen := 1, outputlen := 1,
    add_revcomp := false, shuffle_at_epoch_start := false,
    seqs := [], cts := [], coords := [],
    cur_seqs := [], cur_cts := [], cur_coords := [] }

/-- Two dataset states agree on everything refresh reads: the stored source
arrays and the stored parameters (the materialized cache fields are free to
differ). -/
def SameConfig (d1 d2 : Dataset) : Prop :=
  d1.peak = d2.peak ∧ d1.nonpeak = d2.nonpeak ∧
  d1.negative_sampling_ratio = d2.negative_sampling_ratio ∧
  d1.inputlen = d2.inputlen ∧ d1.outputlen = d2.outputlen ∧
  d1.add_revcomp = d2.add_revcomp ∧ d1.shuffle_at_epoch_start = d2.shuffle_at_epoch_start

/-- The materialized arrays of a dataset state: the concatenated
seqs/cts/coords and the augmented cur arrays. -/
def materializedOf (d : Dataset) :
    (List Mat × List Vec × List Coord) × (List Mat × List Vec × List Coord) :=
  ((d.seqs, d.cts, d.coords), (d.cur_seqs, d.cur_cts, d.cur_coords))

theorem shuffleAux_perm (g : Tape) :
    ∀ (fuel : Nat) (l : List Nat), l.length = fuel → List.Perm (shuffleAux g fuel l) l := by
  intro fuel
  induction fuel with
  | zero =>
      intro l hl
      rw [List.length_eq_zero] at hl
      simp [hl, shuffleAux]
  | succ n ih =>
      intro l hl
      match l with
      | x :: xs =>
        have hlen : 0 < (x :: xs).length := by simp
        have hidx : g n % (x :: xs).length < (x :: xs).length := Nat.mod_lt _ hlen
        have hmem : (x :: xs).getD (g n % (x :: xs).length) 0 ∈ (x :: xs) := by
          rw [List.getD_eq_getElem _ _ hidx]
          exact List.getElem_mem _
        have herase : ((x :: xs).erase ((x :: xs).getD (g n % (x :: xs).length) 0)).length = n := by
          rw [List.length_erase_of_mem hmem]
          simpa using hl
        have hperm := ih _ herase
        have hstep : shuffleAux g (n + 1) (x :: xs)
            = (x :: xs).getD (g n % (x :: xs).length) 0 ::
              shuffleAux g n ((x :: xs).erase ((x :: xs).getD (g n % (x :: xs).length) 0)) := rfl
        rw [hstep]
        exact List.Perm.trans (List.Perm.cons _ hperm) (List.perm_cons_erase hmem).symm

theorem npPermutation_perm (g : Tape) (n : Nat) : List.Perm (npPermutation g n) (List.range n) :=
  shuffleAux_perm g n (List.range n) (List.length_range n)

theorem npPermutation_length (g : Tape) (n : Nat) : (npPermutation g n).length = n := by
  rw [(npPermutation_perm g n).length_eq, List.length_range]

theorem npPermutation_nodup (g : Tape) (n : Nat) : (npPermutation g n).Nodup :=
  ((npPermutation_perm g n).nodup_iff).mpr (List.nodup_range n)

theorem npChoiceNoReplace_length (g : Tape) (n size : Nat) :
    (npChoiceNoReplace g n size).length = min size n := by
  rw [npChoiceNoReplace, List.length_take, npPermutation_length]

theorem npChoiceNoReplace_nodup (g : Tape) (n size : Nat) :
    (npChoiceNoReplace g n size).Nodup :=
  (List.take_sublist _ _).nodup (npPermutation_nodup g n)

theorem npChoiceNoReplace_lt (g : Tape) (n size : Nat) :
    ∀ i ∈ npChoiceNoReplace g n size, i < n := by
  intro i hi
  have : i ∈ npPermutation g n := (List.take_sublist _ _).mem hi
  have : i ∈ List.range n := (npPermutation_perm g n).mem_iff.mp this
  exact List.mem_range.mp this

theorem pyInt_of_nonneg {q : ℚ} (h : 0 ≤ q) : pyInt q = ⌊q⌋ := by
  rw [pyInt, if_pos h]

theorem subsample_fst_eq (g : Tape) (nonpeak_seqs : List Mat) (nonpeak_cts : List Vec)
    (nonpeak_coords : List Coord) (peak_data_size : Nat) (r : ℚ) :
    (subsample_nonpeak_data g nonpeak_seqs nonpeak_cts nonpeak_coords peak_data_size r).1 =
      (nonpeak_indices_to_keep g nonpeak_seqs.length ((pyInt (r * peak_data_size)).toNat)).map
        (fun i => nonpeak_seqs.getD i []) := rfl

/-- C1: for every non-peak population and ratio r greater than zero, the
negative sampler keeps exactly min(floor(r * peak_count), population_size)
examples, and the index list it draws has no duplicates and stays below the
population size. -/
theorem c1_negative_sampler_bounds (g : Tape) (nonpeak_seqs : List Mat)
    (nonpeak_cts : List Vec) (nonpeak_coords : List Coord)
    (peak_data_size : Nat) (r : ℚ) (hr : 0 < r) :
    (subsample_nonpeak_data g nonpeak_seqs nonpeak_cts nonpeak_coords
        peak_data_size r).1.length
      = min (⌊r * (peak_data_size : ℚ)⌋.toNat) nonpeak_seqs.length
    ∧ (nonpeak_indices_to_keep g nonpeak_seqs.length
        ((pyInt (r * peak_data_size)).toNat)).Nodup
    ∧ ∀ i ∈ nonpeak_indices_to_keep g nonpeak_seqs.length
        ((pyInt (r * peak_data_size)).toNat), i < nonpeak_seqs.length := by
  have hq : (0 : ℚ) ≤ r * peak_data_size :=
    mul_nonneg hr.le (Nat.cast_nonneg _)
  refine ⟨?_, npChoiceNoReplace_nodup _ _ _, npChoiceNoReplace_lt _ _ _⟩
  rw [subsample_fst_eq, List.length_map, nonpeak_indices_to_keep,
    npChoiceNoReplace_length, pyInt_of_nonneg hq, min_assoc, min_self]

/-- Witness for C1 at a concrete population of three non-peak examples,
ratio one fifth and ten peaks: it keeps exactly two examples. -/
theorem c1_witness :
    (0 : ℚ) < 1/5 ∧
    ((subsample_nonpeak_data tape0 [[[1]], [[2]], [[3]]] [[1], [2], [3]]
        [default, default, default] 10 (1/5)).1.length
      = min (⌊(1/5 : ℚ) * ((10 : Nat) : ℚ)⌋.toNat)
          ([[[1]], [[2]], [[3]]] : List Mat).length
    ∧ (nonpeak_indices_to_keep tape0 ([[[1]], [[2]], [[3]]] : List Mat).length
        ((pyInt ((1/5) * (10 : Nat))).toNat)).Nodup
    ∧ ∀ i ∈ nonpeak_indices_to_keep tape0 ([[[1]], [[2]], [[3]]] : List Mat).length
        ((pyInt ((1/5) * (10 : Nat))).toNat), i < ([[[1]], [[2]], [[3]]] : List Mat).length) :=
  ⟨by norm_num,
   c1_negative_sampler_bounds tape0 [[[1]], [[2]], [[3]]] [[1], [2], [3]]
     [default, default, default] 10 (1/5) (by norm_num)⟩

/-- C9: split_peak_and_nonpeak does not change the shared input frame (the
is_peak column rewrite is value-preserving on a boolean column), and the
returned peak and non-peak frames are plain filters of the unchanged
input. -/
theorem c9_split_leaves_input_unchanged (data : List Row) :
    (split_peak_and_nonpeak data).2.2 = data ∧
    (split_peak_and_nonpeak data).1 = data.filter (fun r => r.is_peak) ∧
    (split_peak_and_nonpeak data).2.1 = data.filter (fun r => !r.is_peak) := by
  have hid : ∀ r : Row,
      ({ r with is_peak := decide ((if r.is_peak then (1 : ℤ) else 0) ≠ 0) }) = r := by
    intro r
    obtain ⟨c, b⟩ := r
    cases b <;> simp
  have hmap : data.map
      (fun r => { r with is_peak := decide ((if r.is_peak then (1 : ℤ) else 0) ≠ 0) }) = data := by
    induction data with
    | nil => rfl
    | cons a l ih => simp [hid a, ih]
  refine ⟨?_, ?_, ?_⟩ <;> simp [split_peak_and_nonpeak, hmap]

/-- C4 counterexample: with chr1 configured both as a training and as a
validation chromosome and nothing excluded, the chr1 region lands in both
the training and the validation split, so it does not appear in exactly one
of the three outputs. -/
theorem c4_counterexample :
    ∃ st, dataModuleInit
        { data_type := "profile", training_chroms := ["chr1"],
          validation_chroms := ["chr1"], test_chroms := [], exclude_chroms := [] }
        [{ chrom := "chr1", is_peak := true }] = .ok st ∧
      ({ chrom := "chr1", is_peak := true } : Row).chrom ∉ ([] : List String) ∧
      ¬ ((({ chrom := "chr1", is_peak := true } : Row) ∈ st.train_data ∧
            ({ chrom := "chr1", is_peak := true } : Row) ∉ st.val_data ∧
            ({ chrom := "chr1", is_peak := true } : Row) ∉ st.test_data) ∨
         (({ chrom := "chr1", is_peak := true } : Row) ∉ st.train_data ∧
            ({ chrom := "chr1", is_peak := true } : Row) ∈ st.val_data ∧
            ({ chrom := "chr1", is_peak := true } : Row) ∉ st.test_data) ∨
         (({ chrom := "chr1", is_peak := true } : Row) ∉ st.train_data ∧
            ({ chrom := "chr1", is_peak := true } : Row) ∉ st.val_data ∧
            ({ chrom := "chr1", is_peak := true } : Row) ∈ st.test_data)) :=
  ⟨_, rfl, by decide, by decide⟩

/-- C4 amended: after a successful setup, a region of the input frame lies
in a split output exactly when its chromosome is in that split's
post-exclusion chromosome list; in particular a region with an excluded
chromosome appears in none of the three outputs, and one whose chromosome
is in exactly one configured list appears in exactly that output. -/
theorem c4_split_membership (cfg : DMConfig) (data : List Row) (st : DMState) (r : Row)
    (hok : dataModuleInit cfg data = .ok st) (hr : r ∈ data) :
    ((r ∈ st.train_data ↔ r.chrom ∈ st.train_chroms) ∧
     (r ∈ st.val_data ↔ r.chrom ∈ st.val_chroms) ∧
     (r ∈ st.test_data ↔ r.chrom ∈ st.test_chroms)) ∧
    (r.chrom ∈ cfg.exclude_chroms →
      r ∉ st.train_data ∧ r ∉ st.val_data ∧ r ∉ st.test_data) := by
  unfold dataModuleInit at hok
  split at hok
  · rw [Except.ok.injEq] at hok
    subst hok
    constructor
    · refine ⟨?_, ?_, ?_⟩ <;>
        simp [split_data, setup_chromosomes, List.mem_filter, hr]
    · intro hx
      refine ⟨?_, ?_, ?_⟩ <;>
        simp [split_data, setup_chromosomes, List.mem_filter, hr, hx]
  · exact absurd hok (by simp)

/-- Witness for C4 amended: a concrete two-chromosome configuration in which
the chr2 region sits in the validation split only. -/
theorem c4_witness :
    (dataModuleInit
        { data_type := "profile", training_chroms := ["chr1"],
          validation_chroms := ["chr2"], test_chroms := ["chr3"], exclude_chroms := [] }
        [{ chrom := "chr1", is_peak := true }, { chrom := "chr2", is_peak := false }] = .ok
      { train_chroms := ["chr1"], val_chroms := ["chr2"], test_chroms := ["chr3"],
        data := [{ chrom := "chr1", is_peak := true }, { chrom := "chr2", is_peak := false }],
        train_data := [{ chrom := "chr1", is_peak := true }],
        val_data := [{ chrom := "chr2", is_peak := false }],
        test_data := [] }) ∧
    ({ chrom := "chr2", is_peak := false } : Row) ∈
      [{ chrom := "chr1", is_peak := true }, { chrom := "chr2", is_peak := false }] ∧
    (((({ chrom := "chr2", is_peak := false } : Row) ∈
          ({ train_chroms := ["chr1"], val_chroms := ["chr2"], test_chroms := ["chr3"],
             data := [{ chrom := "chr1", is_peak := true },
               { chrom := "chr2", is_peak := false }],
             train_data := [{ chrom := "chr1", is_peak := true }],
             val_data := [{ chrom := "chr2", is_peak := false }],
             test_data := [] } : DMState).train_data ↔
        ({ chrom := "chr2", is_peak := false } : Row).chrom ∈
          ({ train_chroms := ["chr1"], val_chroms := ["chr2"], test_chroms := ["chr3"],
             data := [{ chrom := "chr1", is_peak := true },
               { chrom := "chr2", is_peak := false }],
             train_data := [{ chrom := "chr1", is_peak := true }],
             val_data := [{ chrom := "chr2", is_peak := false }],
             test_data := [] } : DMState).train_chroms) ∧
      (({ chrom := "chr2", is_peak := false } : Row) ∈
          ({ train_chroms := ["chr1"], val_chroms := ["chr2"], test_chroms := ["chr3"],
             data := [{ chrom := "chr1", is_peak := true },
               { chrom := "chr2", is_peak := false }],
             train_data := [{ chrom := "chr1", is_peak := true }],
             val_data := [{ chrom := "chr2", is_peak := false }],
             test_data := [] } : DMState).val_data ↔
        ({ chrom := "chr2", is_peak := false } : Row).chrom ∈
          ({ train_chroms := ["chr1"], val_chroms := ["chr2"], test_chroms := ["chr3"],
             data := [{ chrom := "chr1", is_peak := true },
               { chrom := "chr2", is_peak := false }],
             train_data := [{ chrom := "chr1", is_peak := true }],
             val_data := [{ chrom := "chr2", is_peak := false }],
             test_data := [] } : DMState).val_chroms) ∧
      (({ chrom := "chr2", is_peak := false } : Row) ∈
          ({ train_chroms := ["chr1"], val_chroms := ["chr2"], test_chroms := ["chr3"],
             data := [{ chrom := "chr1", is_peak := true },
               { chrom := "chr2", is_peak := false }],
             train_data := [{ chrom := "chr1", is_peak := true }],
             val_data := [{ chrom := "chr2", is_peak := false }],
             test_data := [] } : DMState).test_data ↔
        ({ chrom := "chr2", is_peak := false } : Row).chrom ∈
          ({ train_chroms := ["chr1"], val_chroms := ["chr2"], test_chroms := ["chr3"],
             data := [{ chrom := "chr1", is_peak := true },
               { chrom := "chr2", is_peak := false }],
             train_data := [{ chrom := "chr1", is_peak := true }],
             val_data := [{ chrom := "chr2", is_peak := false }],
             test_data := [] } : DMState).test_chroms)) ∧
     (({ chrom := "chr2", is_peak := false } : Row).chrom ∈ ([] : List String) →
       ({ chrom := "chr2", is_peak := false } : Row) ∉
         ({ train_chroms := ["chr1"], val_chroms := ["chr2"], test_chroms := ["chr3"],
            data := [{ chrom := "chr1", is_peak := true },
              { chrom := "chr2", is_peak := false }],
            train_data := [{ chrom := "chr1", is_peak := true }],
            val_data := [{ chrom := "chr2", is_peak := false }],
            test_data := [] } : DMState).train_data ∧
       ({ chrom := "chr2", is_peak := false } : Row) ∉
         ({ train_chroms := ["chr1"], val_chroms := ["chr2"], test_chroms := ["chr3"],
            data := [{ chrom := "chr1", is_peak := true },
              { chrom := "chr2", is_peak := false }],
            train_data := [{ chrom := "chr1", is_peak := true }],
            val_data := [{ chrom := "chr2", is_peak := false }],
            test_data := [] } : DMState).val_data ∧
       ({ chrom := "chr2", is_peak := false } : Row) ∉
         ({ train_chroms := ["chr1"], val_chroms := ["chr2"], test_chroms := ["chr3"],
            data := [{ chrom := "chr1", is_peak := true },
              { chrom := "chr2", is_peak := false }],
            train_data := [{ chrom := "chr1", is_peak := true }],
            val_data := [{ chrom := "chr2", is_peak := false }],
            test_data := [] } : DMState).test_data)) :=
  ⟨rfl, by decide,
   c4_split_membership
     { data_type := "profile", training_chroms := ["chr1"],
       validation_chroms := ["chr2"], test_chroms := ["chr3"], exclude_chroms := [] }
     [{ chrom := "chr1", is_peak := true }, { chrom := "chr2", is_peak := false }]
     { train_chroms := ["chr1"], val_chroms := ["chr2"], test_chroms := ["chr3"],
       data := [{ chrom := "chr1", is_peak := true }, { chrom := "chr2", is_peak := false }],
       train_data := [{ chrom := "chr1", is_peak := true }],
       val_data := [{ chrom := "chr2", is_peak := false }],
       test_data := [] }
     { chrom := "chr2", is_peak := false } rfl (by decide)⟩

/-- C5 counterexample: the training and validation chromosome lists overlap
on chr1 after exclusion, yet setup succeeds and the chr1 region is placed
in both splits; no configuration error is raised. -/
theorem c5_counterexample :
    ∃ st, dataModuleInit
        { data_type := "profile", training_chroms := ["chr1"],
          validation_chroms := ["chr1"], test_chroms := [], exclude_chroms := [] }
        [{ chrom := "chr1", is_peak := true }] = .ok st ∧
      ¬ (∀ c ∈ st.train_chroms, c ∉ st.val_chroms) ∧
      ({ chrom := "chr1", is_peak := true } : Row) ∈ st.train_data ∧
      ({ chrom := "chr1", is_peak := true } : Row) ∈ st.val_data :=
  ⟨_, rfl, by decide, by decide, by decide⟩

/-- C5 amended: setup never validates that the chromosome splits are
disjoint; it succeeds exactly when the configured data type is profile, so
overlapping chromosome lists are silently tolerated. -/
theorem c5_only_data_type_checked (cfg : DMConfig) (data : List Row) :
    (∃ st, dataModuleInit cfg data = .ok st) ↔ cfg.data_type = "profile" := by
  unfold dataModuleInit
  split
  · next h => exact ⟨fun _ => h, fun _ => ⟨_, rfl⟩⟩
  · next h =>
      constructor
      · rintro ⟨st, hst⟩
        exact absurd hst (by simp)
      · intro hh
        exact absurd hh h

theorem get?_eq_some_getD {α : Type} (l : List α) (n : Nat) (dflt : α)
    (h : n < l.length) : l.get? n = some (l.getD n dflt) := by
  rw [List.get?_eq_getElem?, List.getElem?_eq_getElem h, List.getD_eq_getElem _ dflt h]

theorem npGet_nonneg {α : Type} (l : List α) (i : ℤ) (h0 : 0 ≤ i) :
    npGet l i = l.get? i.toNat := by
  rw [npGet, if_pos h0]

theorem npGet_nonneg_oob {α : Type} (l : List α) (i : ℤ) (h0 : 0 ≤ i)
    (h : l.length ≤ i.toNat) : npGet l i = none := by
  rw [npGet, if_pos h0, List.get?_eq_none.mpr h]

theorem npGet_too_negative {α : Type} (l : List α) (i : ℤ) (hneg : ¬ 0 ≤ i)
    (h2 : ¬ 0 ≤ (l.length : ℤ) + i) : npGet l i = none := by
  rw [npGet, if_neg hneg, if_neg h2]

theorem getitem_in_range (d : Dataset) (i : ℤ) (h0 : 0 ≤ i)
    (h1 : i.toNat < d.cur_seqs.length) (h2 : i.toNat < d.cur_cts.length) :
    getitem d i = some
      { onehot_seq := ((d.cur_seqs.getD i.toNat []).map (List.map astype_float32)).transpose,
        profile := (d.cur_cts.getD i.toNat []).map astype_float32 } := by
  unfold getitem
  rw [npGet_nonneg _ _ h0, npGet_nonneg _ _ h0,
    get?_eq_some_getD _ _ [] h1, get?_eq_some_getD _ _ [] h2]

theorem getitem_seq_none (d : Dataset) (i : ℤ)
    (h : npGet d.cur_seqs i = none) : getitem d i = none := by
  unfold getitem
  rw [h]

/-- C3: for a materialized dataset (the two cur arrays are aligned),
retrieval at an index i with 0 <= i < size returns the one-hot sequence,
cast to float32 and transposed to channel-first layout, together with the
float32 count profile at i; retrieval at i >= size fails with an index
error; and retrieval reads only the cur arrays, so it never triggers a
refresh. -/
theorem c3_getitem_contract (d : Dataset) (i : ℤ)
    (halign : d.cur_cts.length = d.cur_seqs.length) :
    (0 ≤ i → i < (datasetLen d : ℤ) →
      getitem d i = some
        { onehot_seq := ((d.cur_seqs.getD i.toNat []).map
            (List.map astype_float32)).transpose,
          profile := (d.cur_cts.getD i.toNat []).map astype_float32 }) ∧
    ((datasetLen d : ℤ) ≤ i → getitem d i = none) ∧
    (∀ d' : Dataset, d'.cur_seqs = d.cur_seqs → d'.cur_cts = d.cur_cts →
      getitem d' i = getitem d i) := by
  refine ⟨?_, ?_, ?_⟩
  · intro h0 hlt
    unfold datasetLen at hlt
    have h1 : i.toNat < d.cur_seqs.length := by omega
    have h2 : i.toNat < d.cur_cts.length := by rw [halign]; exact h1
    exact getitem_in_range d i h0 h1 h2
  · intro hge
    unfold datasetLen at hge
    have h0 : 0 ≤ i := le_trans (Int.ofNat_nonneg _) hge
    have h1 : d.cur_seqs.length ≤ i.toNat := by omega
    exact getitem_seq_none d i (npGet_nonneg_oob _ _ h0 h1)
  · intro d' h1 h2
    unfold getitem npGet
    rw [h1, h2]

/-- Witness for C3 at index 0 of the two-example dataset. -/
theorem c3_witness :
    sampleCur.cur_cts.length = sampleCur.cur_seqs.length ∧
    ((0 ≤ (0 : ℤ) → (0 : ℤ) < (datasetLen sampleCur : ℤ) →
      getitem sampleCur 0 = some
        { onehot_seq := ((sampleCur.cur_seqs.getD (0 : ℤ).toNat []).map
            (List.map astype_float32)).transpose,
          profile := (sampleCur.cur_cts.getD (0 : ℤ).toNat []).map astype_float32 }) ∧
    ((datasetLen sampleCur : ℤ) ≤ 0 → getitem sampleCur 0 = none) ∧
    (∀ d' : Dataset, d'.cur_seqs = sampleCur.cur_seqs → d'.cur_cts = sampleCur.cur_cts →
      getitem d' 0 = getitem sampleCur 0)) :=
  ⟨rfl, c3_getitem_contract sampleCur 0 rfl⟩

/-- C10: on a non-empty materialized dataset, a negative index i with
-size <= i < 0 succeeds and reads the example at position size + i; the
index error occurs only for i >= size or i < -size (in-range nonnegative
indices succeed as well). -/
theorem c10_negative_index (d : Dataset) (i : ℤ)
    (hsize : 1 ≤ datasetLen d) (halign : d.cur_cts.length = d.cur_seqs.length) :
    (-(datasetLen d : ℤ) ≤ i → i < 0 →
      getitem d i = getitem d ((datasetLen d : ℤ) + i) ∧ (getitem d i).isSome) ∧
    (i < -(datasetLen d : ℤ) → getitem d i = none) ∧
    (0 ≤ i → i < (datasetLen d : ℤ) → (getitem d i).isSome) := by
  unfold datasetLen
  refine ⟨?_, ?_, ?_⟩
  · intro hni hlt
    have hneg : ¬ (0 : ℤ) ≤ i := not_le.mpr hlt
    have hplus : 0 ≤ (d.cur_seqs.length : ℤ) + i := by omega
    have hb1 : ((d.cur_seqs.length : ℤ) + i).toNat < d.cur_seqs.length := by omega
    have hb2 : ((d.cur_seqs.length : ℤ) + i).toNat < d.cur_cts.length := by
      rw [halign]; exact hb1
    have hL : getitem d i = some
        { onehot_seq := ((d.cur_seqs.getD ((d.cur_seqs.length : ℤ) + i).toNat []).map
            (List.map astype_float32)).transpose,
          profile := (d.cur_cts.getD ((d.cur_seqs.length : ℤ) + i).toNat []).map
            astype_float32 } := by
      unfold getitem npGet
      rw [if_neg hneg, if_neg hneg, halign, if_pos hplus, if_pos hplus,
        get?_eq_some_getD _ _ [] hb1, get?_eq_some_getD _ _ [] hb2]
    have hR := getitem_in_range d ((d.cur_seqs.length : ℤ) + i) hplus hb1 hb2
    constructor
    · rw [hL, hR]
    · rw [hL]
      rfl
  · intro hlt
    have hneg : ¬ (0 : ℤ) ≤ i := by omega
    have h2 : ¬ 0 ≤ (d.cur_seqs.length : ℤ) + i := by omega
    exact getitem_seq_none d i (npGet_too_negative _ _ hneg h2)
  · intro h0 hlt
    have h1 : i.toNat < d.cur_seqs.length := by omega
    have h2 : i.toNat < d.cur_cts.length := by rw [halign]; exact h1
    rw [getitem_in_range d i h0 h1 h2]
    rfl

/-- Witness for C10 at index -1 of the two-example dataset. -/
theorem c10_witness :
    1 ≤ datasetLen sampleCur ∧
    sampleCur.cur_cts.length = sampleCur.cur_seqs.length ∧
    ((-(datasetLen sampleCur : ℤ) ≤ -1 → (-1 : ℤ) < 0 →
      getitem sampleCur (-1) = getitem sampleCur ((datasetLen sampleCur : ℤ) + -1) ∧
        (getitem sampleCur (-1)).isSome) ∧
    ((-1 : ℤ) < -(datasetLen sampleCur : ℤ) → getitem sampleCur (-1) = none) ∧
    (0 ≤ (-1 : ℤ) → (-1 : ℤ) < (datasetLen sampleCur : ℤ) →
      (getitem sampleCur (-1)).isSome)) :=
  ⟨by decide, rfl, c10_negative_index sampleCur (-1) (by decide) rfl⟩

theorem random_crop_lengths (g : Tape) (seqs : List Mat) (cts : List Vec)
    (inputlen outputlen : Nat) (coords : List Coord) :
    (random_crop g seqs cts inputlen outputlen coords).1.length = seqs.length ∧
    (random_crop g seqs cts inputlen outputlen coords).2.1.length = seqs.length ∧
    (random_crop g seqs cts inputlen outputlen coords).2.2.length = seqs.length := by
  refine ⟨?_, ?_, ?_⟩ <;> simp [random_crop]

/-- C6: when the negative sampling ratio is at most zero and both region
classes are present, refresh succeeds and the materialized concatenation
keeps the whole non-peak population unchanged after the cropped peak block:
no subsetting and no reordering of the non-peak block. -/
theorem c6_ratio_nonpos_keeps_all_nonpeaks (g : Tape) (d : Dataset) (pk npk : SourceArrays)
    (hp : d.peak = some pk) (hn : d.nonpeak = some npk)
    (hr : d.negative_sampling_ratio ≤ 0) :
    ∃ d', crop_revcomp_data g d = .ok d' ∧
      d'.seqs.length = pk.seqs.length + npk.seqs.length ∧
      d'.seqs.drop pk.seqs.length = npk.seqs ∧
      d'.cts.drop pk.seqs.length = npk.cts ∧
      d'.coords.drop pk.seqs.length = npk.coords := by
  obtain ⟨hl1, hl2, hl3⟩ := random_crop_lengths (tapeSlice g 0) pk.seqs pk.cts
    d.inputlen d.outputlen pk.coords
  simp only [crop_revcomp_data, hp, hn]
  rw [if_neg (not_lt.mpr hr)]
  refine ⟨_, rfl, ?_, ?_, ?_, ?_⟩
  · simp only [materialize, List.length_append, hl1]
  · simp only [materialize]
    rw [← hl1, List.drop_left]
  · simp only [materialize]
    rw [← hl2, List.drop_left]
  · simp only [materialize]
    rw [← hl3, List.drop_left]

/-- Witness for C6 on the concrete dataset with ratio -1. -/
theorem c6_witness :
    sampleDatasetOff.peak = some samplePeakSA ∧
    sampleDatasetOff.nonpeak = some sampleNonpeakSA ∧
    sampleDatasetOff.negative_sampling_ratio ≤ 0 ∧
    (∃ d', crop_revcomp_data tape0 sampleDatasetOff = .ok d' ∧
      d'.seqs.length = samplePeakSA.seqs.length + sampleNonpeakSA.seqs.length ∧
      d'.seqs.drop samplePeakSA.seqs.length = sampleNonpeakSA.seqs ∧
      d'.cts.drop samplePeakSA.seqs.length = sampleNonpeakSA.cts ∧
      d'.coords.drop samplePeakSA.seqs.length = sampleNonpeakSA.coords) :=
  ⟨rfl, rfl, by norm_num [sampleDatasetOff],
   c6_ratio_nonpos_keeps_all_nonpeaks tape0 sampleDatasetOff samplePeakSA sampleNonpeakSA
     rfl rfl (by norm_num [sampleDatasetOff])⟩

theorem crop_revcomp_data_congr {d1 d2 : Dataset} (g : Tape) (h : SameConfig d1 d2) :
    (crop_revcomp_data g d1).map materializedOf =
      (crop_revcomp_data g d2).map materializedOf := by
  obtain ⟨hp, hn, hr, hi, ho, ha, hs⟩ := h
  cases hpk : d2.peak with
  | none =>
      cases hnp : d2.nonpeak with
      | none => simp [crop_revcomp_data, hp, hn, hpk, hnp]
      | some npk =>
          simp [crop_revcomp_data, Except.map, materialize, materializedOf,
            hp, hn, hpk, hnp, hi, ho, ha, hs]
  | some pk =>
      cases hnp : d2.nonpeak with
      | none =>
          simp [crop_revcomp_data, Except.map, materialize, materializedOf,
            hp, hn, hpk, hnp, hi, ho, ha, hs]
      | some npk =>
          by_cases hcond : 0 < d2.negative_sampling_ratio
          · simp [crop_revcomp_data, Except.map, materialize, materializedOf,
              hp, hn, hpk, hnp, hi, ho, ha, hs, hr, hcond]
          · simp [crop_revcomp_data, Except.map, materialize, materializedOf,
              hp, hn, hpk, hnp, hi, ho, ha, hs, hr, hcond]

/-- C2: refresh is a pure function of the stored source arrays, the stored
parameters and the random tape: two states that agree on those (whatever
their previous materializations) yield identical materialized arrays under
the same tape, so all randomness is driven by the single tape and equal
seeds give equal outputs. -/
theorem c2_refresh_deterministic (d1 d2 : Dataset) (g : Tape) (h : SameConfig d1 d2) :
    (crop_revcomp_data g d1).map materializedOf =
      (crop_revcomp_data g d2).map materializedOf :=
  crop_revcomp_data_congr g h

/-- Witness for C2: the sampling-disabled dataset compared with a copy whose
cache fields differ. -/
theorem c2_witness :
    SameConfig sampleDatasetOff { sampleDatasetOff with cur_seqs := [[[9, 9, 9, 9]]] } ∧
    (crop_revcomp_data tape0 sampleDatasetOff).map materializedOf =
      (crop_revcomp_data tape0
        { sampleDatasetOff with cur_seqs := [[[9, 9, 9, 9]]] }).map materializedOf :=
  ⟨⟨rfl, rfl, rfl, rfl, rfl, rfl, rfl⟩,
   c2_refresh_deterministic sampleDatasetOff
     { sampleDatasetOff with cur_seqs := [[[9, 9, 9, 9]]] } tape0
     ⟨rfl, rfl, rfl, rfl, rfl, rfl, rfl⟩⟩

theorem crop_revcomp_data_ok_config {g : Tape} {d d' : Dataset}
    (h : crop_revcomp_data g d = .ok d') : SameConfig d' d := by
  unfold crop_revcomp_data at h
  cases hpk : d.peak <;> cases hnp : d.nonpeak <;> simp only [hpk, hnp] at h
  · exact absurd h (by simp)
  · injection h with h
    subst h
    exact ⟨rfl, rfl, rfl, rfl, rfl, rfl, rfl⟩
  · injection h with h
    subst h
    exact ⟨rfl, rfl, rfl, rfl, rfl, rfl, rfl⟩
  · split at h <;>
      · injection h with h
        subst h
        exact ⟨rfl, rfl, rfl, rfl, rfl, rfl, rfl⟩

/-- C8: refresh recomputes the cache from the stored source arrays and
leaves them (and all stored parameters) unchanged, so a later refresh of the
refreshed state starts from the same inputs and produces the same
materialized arrays as a refresh of the original state: no drift
accumulates across epochs. -/
theorem c8_refresh_reads_only_sources (g g2 : Tape) (d d' : Dataset)
    (h : crop_revcomp_data g d = .ok d') :
    d'.peak = d.peak ∧ d'.nonpeak = d.nonpeak ∧
    d'.negative_sampling_ratio = d.negative_sampling_ratio ∧
    d'.inputlen = d.inputlen ∧ d'.outputlen = d.outputlen ∧
    d'.add_revcomp = d.add_revcomp ∧ d'.shuffle_at_epoch_start = d.shuffle_at_epoch_start ∧
    (crop_revcomp_data g2 d').map materializedOf =
      (crop_revcomp_data g2 d).map materializedOf := by
  obtain ⟨h1, h2, h3, h4, h5, h6, h7⟩ := crop_revcomp_data_ok_config h
  exact ⟨h1, h2, h3, h4, h5, h6, h7,
    crop_revcomp_data_congr g2 ⟨h1, h2, h3, h4, h5, h6, h7⟩⟩

/-- Witness for C8: a concrete refresh of the sampling-disabled dataset. -/
theorem c8_witness :
    ∃ d', crop_revcomp_data tape0 sampleDatasetOff = .ok d' ∧
      (d'.peak = sampleDatasetOff.peak ∧ d'.nonpeak = sampleDatasetOff.nonpeak ∧
       d'.negative_sampling_ratio = sampleDatasetOff.negative_sampling_ratio ∧
       d'.inputlen = sampleDatasetOff.inputlen ∧
       d'.outputlen = sampleDatasetOff.outputlen ∧
       d'.add_revcomp = sampleDatasetOff.add_revcomp ∧
       d'.shuffle_at_epoch_start = sampleDatasetOff.shuffle_at_epoch_start ∧
       (crop_revcomp_data tape0 d').map materializedOf =
         (crop_revcomp_data tape0 sampleDatasetOff).map materializedOf) :=
  ⟨_, rfl, c8_refresh_reads_only_sources tape0 tape0 sampleDatasetOff _ rfl⟩

/-- C7: constructing the dataset with both region sets empty fails with the
empty-dataset error; with at least one non-empty region set, construction
succeeds and materializes arrays. -/
theorem c7_empty_dataset_error (g : Tape) (seqStore : Region → Mat)
    (trackStore : Region → Vec) (peaks npks : List Region) (r : ℚ)
    (inputlen outputlen : Nat) (add_revcomp shuffle_at_epoch_start : Bool) :
    (peaks = [] → npks = [] →
      datasetInit g seqStore trackStore peaks npks r inputlen outputlen
        add_revcomp shuffle_at_epoch_start =
        .error "Both peak and non-peak arrays are empty") ∧
    ((peaks ≠ [] ∨ npks ≠ []) →
      ∃ d, datasetInit g seqStore trackStore peaks npks r inputlen outputlen
        add_revcomp shuffle_at_epoch_start = .ok d) := by
  constructor
  · rintro rfl rfl
    rfl
  · intro hne
    unfold datasetInit load_data crop_revcomp_data
    cases hpe : peaks.isEmpty with
    | true =>
        have hp : peaks = [] := List.isEmpty_iff.mp hpe
        have hn : npks ≠ [] := by
          cases hne with
          | inl h => exact absurd hp h
          | inr h => exact h
        have hne2 : npks.isEmpty = false := by
          rw [List.isEmpty_eq_false]
          exact hn
        simp [hpe, hne2]
    | false =>
        cases hne2 : npks.isEmpty with
        | true => simp [hpe, hne2]
        | false =>
            by_cases hc : 0 < r
            · simp [hpe, hne2, hc]
            · simp [hpe, hne2, hc]

/-- Witness for C7: the empty-empty instantiation errors, and a one-peak
instantiation succeeds. -/
theorem c7_witness :
    ((([] : List Region) = [] → ([] : List Region) = [] →
      datasetInit tape0 (fun _ => []) (fun _ => []) [] [] 1 1 1 false false =
        .error "Both peak and non-peak arrays are empty") ∧
     ((([] : List Region) ≠ [] ∨ ([] : List Region) ≠ []) →
      ∃ d, datasetInit tape0 (fun _ => []) (fun _ => []) [] [] 1 1 1 false false = .ok d)) ∧
    (([{ chrom := "chr1", start := 0, stop := 1, is_peak := true }] : List Region) ≠ [] ∨
      ([] : List Region) ≠ []) ∧
    (∃ d, datasetInit tape0 (fun _ => [[1, 0, 0, 0]]) (fun _ => [2])
      [{ chrom := "chr1", start := 0, stop := 1, is_peak := true }] [] 1 1 1 false false =
        .ok d) :=
  ⟨c7_empty_dataset_error tape0 (fun _ => []) (fun _ => []) [] [] 1 1 1 false false,
   Or.inl (by simp),
   (c7_empty_dataset_error tape0 (fun _ => [[1, 0, 0, 0]]) (fun _ => [2])
      [{ chrom := "chr1", start := 0, stop := 1, is_peak := true }] [] 1 1 1 false false).2
     (Or.inl (by simp))⟩

theorem crop_revcomp_augment_aligned (g : Tape) (seqs : List Mat) (cts : List Vec)
    (coords : List Coord) (inputlen outputlen : Nat) (add_revcomp shuffle : Bool) :
    (crop_revcomp_augment g seqs cts coords inputlen outputlen add_revcomp shuffle).2.1.length =
      (crop_revcomp_augment g seqs cts coords inputlen outputlen add_revcomp shuffle).1.length := by
  unfold crop_revcomp_augment
  cases shuffle <;> simp

/-- Every state produced by crop_revcomp_data has its cur_cts aligned with
cur_seqs, so the alignment hypothesis of the retrieval theorems holds for
every materialized dataset. -/
theorem crop_revcomp_data_ok_aligned {g : Tape} {d d' : Dataset}
    (h : crop_revcomp_data g d = .ok d') :
    d'.cur_cts.length = d'.cur_seqs.length := by
  unfold crop_revcomp_data at h
  cases hpk : d.peak <;> cases hnp : d.nonpeak <;> simp only [hpk, hnp] at h
  · exact absurd h (by simp)
  · injection h with h
    subst h
    exact crop_revcomp_augment_aligned _ _ _ _ _ _ _ _
  · injection h with h
    subst h
    exact crop_revcomp_augment_aligned _ _ _ _ _ _ _ _
  · split at h <;>
      · injection h with h
        subst h
        exact crop_revcomp_augment_aligned _ _ _ _ _ _ _ _

end ChromBPNet
